import Mathlib

/-!
Shallow embedding of the conversation state and action orchestration core of
the rasa_nlu repository, covering the form action state machine in
rasa/core/actions/forms.py, the remote action gateway fragment used by
rasa/core/training/interactive.py (send_action), the end-to-end stub custom
action executor in rasa/core/actions/e2e_stub_custom_action_executor.py, and
the configuration validation of rasa/nlu/extractors/crf_entity_extractor.py.

Python values that can be either a single extracted entity value or an
ordered list of values are modelled by the type Value below; Python None is
modelled by Option. Python dicts keyed by slot names are modelled by ordered
association lists, matching the insertion-ordered iteration of Python dicts.
-/

/-- Slot values: a single textual value or an ordered list of values
(list-slot semantics of forms.py get_entity_value). -/
inductive Value where
  | str : String → Value
  | list : List String → Value
deriving DecidableEq, Repr

/-- Events emitted by the form action: SlotSet(name, value) and Form(name).
Form none is the deactivation event Form(None); the slot value none models
a Python SlotSet with value None. -/
inductive Event where
  | SlotSet : String → Option Value → Event
  | FormEv : Option String → Event
deriving DecidableEq, Repr

/-- Source: forms.py REQUESTED_SLOT, the slot used to store the name of the
slot the form is currently asking for. -/
def REQUESTED_SLOT : String := "requested_slot"

/-- Entity extracted from the latest user message, as stored in the parse
data of the tracker latest message. -/
structure Entity where
  entity : String
  value : String
  role : Option String
  group : Option String
deriving DecidableEq, Repr

/-- Latest user message of a tracker: raw text, intent name and extracted
entities. -/
structure Message where
  text : Option String
  intentName : Option String
  entities : List Entity
deriving DecidableEq, Repr

/-- Dialogue state tracker, reduced to the accessors forms.py consults:
slot values, the active form descriptor (name and validate flag of the
active_form dict), the latest action name and the latest user message. -/
structure Tracker where
  slots : List (String × Option Value)
  activeFormName : Option String
  activeFormValidate : Option Bool
  latestActionName : Option String
  latestMessage : Message
deriving DecidableEq, Repr

/-- Source: tracker.get_slot(name) returns the current slot value, or None
when the slot is unset or unknown. -/
def get_slot (t : Tracker) (name : String) : Option Value :=
  match t.slots.lookup name with
  | some v => v
  | none => none

/-- Update of the slot map of a tracker: replace the entry when the key is
present, append it otherwise. -/
def setSlot (slots : List (String × Option Value)) (name : String)
    (v : Option Value) : List (String × Option Value) :=
  if slots.any (fun p => p.1 == name) then
    slots.map (fun p => if p.1 == name then (name, v) else p)
  else slots ++ [(name, v)]

/-- Modelled from the spec: tracker.get_latest_entity_values(entity_type,
entity_role, entity_group) is a sequence of values of a given entity type
extracted from the most recent user message only, filtered by optional role
and group (spec section 4.1; rasa/core/trackers.py is not part of the
sampled sources). -/
def getLatestEntityValues (t : Tracker) (name : Option String)
    (entity_group entity_role : Option String) : List String :=
  t.latestMessage.entities.filterMap fun e =>
    if some e.entity = name
        ∧ (entity_group = none ∨ e.group = entity_group)
        ∧ (entity_role = none ∨ e.role = entity_role) then
      some e.value
    else none

/-- Modelled from the spec: DialogueStateTracker.from_events replays events
to reconstruct the applied state (spec sections 3 and 4.1: the applied state
is the fold of apply over the events). Applying the events produced by the
form action (SlotSet and Form) on top of the current tracker state models
from_events(sender_id, events_after_latest_restart() + events). -/
def applyEvent (t : Tracker) : Event → Tracker
  | Event.SlotSet n v => { t with slots := setSlot t.slots n v }
  | Event.FormEv name =>
      { t with
        activeFormName := name,
        activeFormValidate := if name.isSome then some true else none }

/-- Fold of applyEvent over a list of events. -/
def applyEvents (t : Tracker) (events : List Event) : Tracker :=
  events.foldl applyEvent t

/-- Kinds of slot mappings (the type field of the mapping dict). -/
inductive MappingType where
  | from_entity
  | from_intent
  | from_trigger_intent
  | from_text
deriving DecidableEq, Repr

/-- Slot mapping dict of forms.py, as a closed record. Fields that a given
mapping kind does not use stay at their neutral value (none or []),
mirroring dict.get on an absent key. -/
structure SlotMapping where
  type : MappingType
  entity : Option String
  intent : List String
  not_intent : List String
  role : Option String
  group : Option String
  value : Option Value
deriving DecidableEq, Repr

/-- Value of a slot entry in the form configuration dict: Python allows a
single mapping dict, a list of mapping dicts, or None. -/
inductive MappingSpec where
  | noneSpec : MappingSpec
  | single : SlotMapping → MappingSpec
  | listSpec : List SlotMapping → MappingSpec
deriving DecidableEq, Repr

/-- Source: FormAction._to_list converts None to the empty list and wraps a
non-list value into a one-element list. -/
def _to_list : MappingSpec → List SlotMapping
  | MappingSpec.noneSpec => []
  | MappingSpec.single m => [m]
  | MappingSpec.listSpec ms => ms

/-- Form action: its name and its configuration (the entry of domain.forms
for this form, an insertion-ordered dict from slot names to mapping
specifications, read by FormAction._config). -/
structure FormAction where
  formName : String
  config : List (String × MappingSpec)
deriving DecidableEq, Repr

/-- Domain fragment consumed by the form action: the set of action names. -/
structure Domain where
  actionNames : List String
deriving DecidableEq, Repr

/-- Source: FormAction.required_slots returns the keys of the form
configuration in declaration order. -/
def required_slots (f : FormAction) : List String :=
  f.config.map Prod.fst

/-- Truthiness of an optional list, as Python applies it to the intent and
not_intent arguments of _list_intents. -/
def truthyList : Option (List String) → Bool
  | some (_ :: _) => true
  | _ => false

/-- Conversion of an optional list argument to a list (the effect of
_to_list on an argument that is already a list or None). -/
def _to_list_intents : Option (List String) → List String
  | none => []
  | some l => l

/-- Source: FormAction._list_intents raises ValueError when both intent and
not_intent are truthy, else returns both normalised to lists. -/
def _list_intents (intent not_intent : Option (List String)) :
    Except String (List String × List String) :=
  if truthyList intent && truthyList not_intent then
    Except.error "Providing both intent and not_intent is not supported."
  else
    Except.ok (_to_list_intents intent, _to_list_intents not_intent)

/-- Source: FormAction.from_entity builds a from_entity mapping dict after
checking the intent arguments through _list_intents. -/
def from_entity (entity : String) (intent not_intent : Option (List String))
    (role group : Option String) : Except String SlotMapping :=
  match _list_intents intent not_intent with
  | Except.error e => Except.error e
  | Except.ok (i, ni) =>
      Except.ok
        { type := MappingType.from_entity, entity := some entity, intent := i,
          not_intent := ni, role := role, group := group, value := none }

/-- The mapping produced by from_entity at its default arguments (all
optional arguments None), used by get_mappings_for_slot as the implicit
default mapping of a slot without explicit configuration. -/
def from_entityD (entity : String) : SlotMapping :=
  { type := MappingType.from_entity, entity := some entity, intent := [],
    not_intent := [], role := none, group := none, value := none }

theorem from_entity_default (entity : String) :
    from_entity entity none none none none = Except.ok (from_entityD entity) := rfl

/-- Source: FormAction.get_mappings_for_slot reads the configured mapping
specification of the slot, defaulting to from_entity(slot_to_fill) when the
key is absent, and normalises it with _to_list. The TypeError branch for
non-dict entries is unrepresentable in this typed embedding. -/
def get_mappings_for_slot (f : FormAction) (slot_to_fill : String) :
    List SlotMapping :=
  match f.config.lookup slot_to_fill with
  | some spec => _to_list spec
  | none => _to_list (MappingSpec.single (from_entityD slot_to_fill))

/-- Membership of an optional intent name in a list of intent names; a None
intent is a member of no list, as in Python. -/
def optIntentMem (intent : Option String) (l : List String) : Bool :=
  match intent with
  | none => false
  | some i => l.contains i

/-- Source: FormAction.intent_is_desired checks the intent conditions of a
mapping: the mapping applies when its intent list is empty and the current
intent is not in its not_intent list, or when the current intent is in its
intent list. -/
def intent_is_desired (m : SlotMapping) (t : Tracker) : Bool :=
  let mapping_intents := m.intent
  let mapping_not_intents := m.not_intent
  let intent := t.latestMessage.intentName
  let intent_not_blacklisted :=
    mapping_intents.isEmpty && ! optIntentMem intent mapping_not_intents
  intent_not_blacklisted || optIntentMem intent mapping_intents

/-- Source: FormAction.get_entity_value collects the latest entity values
for the given entity name, role and group; zero matches give None, exactly
one match gives the value itself, several matches give the whole ordered
list (list slot semantics). -/
def get_entity_value (name : Option String) (t : Tracker)
    (role group : Option String) : Option Value :=
  match getLatestEntityValues t name group role with
  | [] => none
  | [v] => some (Value.str v)
  | vs => some (Value.list vs)

/-- Source: FormAction.entity_is_desired holds when the slot name equals
the entity of the mapping, or when the mapping extracts a non-None value
from the latest message. -/
def entity_is_desired (m : SlotMapping) (slot : String) (t : Tracker) : Bool :=
  let slot_equals_entity := m.entity == some slot
  let slot_fulfils_entity_mapping :=
    (get_entity_value m.entity t m.role m.group).isSome
  slot_equals_entity || slot_fulfils_entity_mapping

/-- Value extracted for one other (not currently requested) slot by one of
its mappings, following the loop body of extract_other_slots: a from_entity
mapping that passes the intent and entity checks extracts through
get_entity_value; a from_trigger_intent mapping extracts its configured
value while the form is not yet active; anything else extracts nothing. -/
def extractOtherMappingValue (f : FormAction) (m : SlotMapping)
    (slot : String) (t : Tracker) : Option Value :=
  let should_fill_entity_slot :=
    m.type == MappingType.from_entity
      && intent_is_desired m t && entity_is_desired m slot t
  let should_fill_trigger_slot :=
    (t.activeFormName != some f.formName)
      && m.type == MappingType.from_trigger_intent && intent_is_desired m t
  if should_fill_entity_slot then get_entity_value m.entity t m.role m.group
  else if should_fill_trigger_slot then m.value
  else none

/-- Source: FormAction.extract_other_slots walks the required slots other
than the requested one; for each, the first mapping extracting a non-None
value fills it (the inner loop breaks). The result is the slot_values dict
in required-slot order. -/
def extract_other_slots (f : FormAction) (t : Tracker) :
    List (String × Value) :=
  let slot_to_fill := get_slot t REQUESTED_SLOT
  (required_slots f).foldl
    (fun slot_values slot =>
      if some (Value.str slot) ≠ slot_to_fill then
        match
          (get_mappings_for_slot f slot).findSome? fun m =>
            extractOtherMappingValue f m slot t
        with
        | some value => slot_values ++ [(slot, value)]
        | none => slot_values
      else slot_values)
    []

/-- Source: FormAction.extract_requested_slot walks the mappings of the
requested slot; the first mapping that passes the intent check and extracts
a non-None value wins (from_trigger_intent mappings are skipped outside of
activation). A requested slot value that is not a plain string never names
a configured slot, so it extracts nothing. -/
def extract_requested_slot (f : FormAction) (t : Tracker) :
    List (String × Value) :=
  match get_slot t REQUESTED_SLOT with
  | some (Value.str slot_to_fill) =>
      match
        (get_mappings_for_slot f slot_to_fill).findSome? fun m =>
          if intent_is_desired m t then
            match m.type with
            | MappingType.from_entity => get_entity_value m.entity t m.role m.group
            | MappingType.from_intent => m.value
            | MappingType.from_trigger_intent => none
            | MappingType.from_text => t.latestMessage.text.map Value.str
          else none
      with
      | some value => [(slot_to_fill, value)]
      | none => []
  | _ => []

/-- Rejection signal raised by FormAction.validate: ActionExecutionRejection
carries the name of the rejected action and a message. -/
structure ActionExecutionRejection where
  action_name : String
  message : String
deriving DecidableEq, Repr

/-- Python dict update of one key: replace the entry when the key is
present, append it otherwise. -/
def dictUpdateOne (base : List (String × Value)) (kv : String × Value) :
    List (String × Value) :=
  if base.any (fun p => p.1 == kv.1) then
    base.map (fun p => if p.1 == kv.1 then kv else p)
  else base ++ [kv]

/-- Python dict update with all entries of a second dict, in order. -/
def dictUpdate (base : List (String × Value)) :
    List (String × Value) → List (String × Value)
  | [] => base
  | kv :: rest => dictUpdate (dictUpdateOne base kv) rest

/-- Python truthiness of an optional slot value: None, the empty string and
the empty list are falsy. -/
def truthy : Option Value → Bool
  | none => false
  | some (Value.str s) => ! s.isEmpty
  | some (Value.list l) => ! l.isEmpty

/-- Remote action oracle: stands for RemoteAction(name, endpoint).run on a
given (hypothetical) tracker, returning the events of the action server.
The network call itself is outside this embedding. -/
def RemoteOracle : Type := String → Tracker → List Event

/-- Source: FormAction.validate_slots turns the proposed slot dict into
SlotSet events; when the domain has no action_validate_(form) action or the
validate entry of the active_form dict is not truthy, these events are
returned verbatim, otherwise the remote validation action runs on the
hypothetical tracker obtained by applying the proposed events. -/
def validate_slots (f : FormAction) (oracle : RemoteOracle)
    (slot_dict : List (String × Value)) (t : Tracker) (d : Domain) :
    List Event :=
  let validate_name := "action_validate_" ++ f.formName
  let form_events := slot_dict.map fun p => Event.SlotSet p.1 (some p.2)
  if validate_name ∉ d.actionNames ∨ t.activeFormValidate ≠ some true then
    form_events
  else
    oracle validate_name (applyEvents t form_events)

/-- Source: FormAction.validate extracts the other slots, then the
requested slot when one is set; when a slot was requested and the combined
extraction dict is empty, it raises ActionExecutionRejection, otherwise it
sends the extracted values through validate_slots. -/
def validate (f : FormAction) (oracle : RemoteOracle) (t : Tracker)
    (d : Domain) : Except ActionExecutionRejection (List Event) :=
  let slot_values := extract_other_slots f t
  let slot_to_fill := get_slot t REQUESTED_SLOT
  if truthy slot_to_fill then
    let slot_values := dictUpdate slot_values (extract_requested_slot f t)
    if slot_values.isEmpty then
      Except.error
        { action_name := f.formName,
          message := "Failed to extract slot " ++ f.formName }
    else Except.ok (validate_slots f oracle slot_values t d)
  else Except.ok (validate_slots f oracle slot_values t d)

/-- Source: FormAction._should_request_slot holds when the tracker value of
the slot is None. -/
def _should_request_slot (t : Tracker) (slot_name : String) : Bool :=
  (get_slot t slot_name).isNone

/-- Source: FormAction.request_next_slot returns a SlotSet event naming the
first required slot that should still be requested, or None when every
required slot is set. -/
def request_next_slot (f : FormAction) (t : Tracker) : Option (List Event) :=
  match (required_slots f).find? (fun slot => _should_request_slot t slot) with
  | some slot => some [Event.SlotSet REQUESTED_SLOT (some (Value.str slot))]
  | none => none

/-- Source: FormAction.deactivate returns the Form(None) event followed by
the reset of the requested slot. -/
def deactivate (_f : FormAction) : List Event :=
  [Event.FormEv none, Event.SlotSet REQUESTED_SLOT none]

/-- Source: FormAction._activate_if_required returns no events when the
active form already is this form; otherwise it emits Form(name) and, when
required slots are already filled, the validation events of these
pre-filled slots. -/
def _activate_if_required (f : FormAction) (oracle : RemoteOracle)
    (t : Tracker) (d : Domain) : List Event :=
  if t.activeFormName = some f.formName then []
  else
    let events := [Event.FormEv (some f.formName)]
    let prefilled_slots := (required_slots f).filterMap fun slot_name =>
      if _should_request_slot t slot_name then none
      else (get_slot t slot_name).map fun v => (slot_name, v)
    if ¬ prefilled_slots.isEmpty then
      events ++ validate_slots f oracle prefilled_slots t d
    else events

/-- Source: FormAction._validate_if_required runs validate when the latest
action is action_listen and the validate entry of the active_form dict
(defaulting to True) is truthy; otherwise validation is skipped and no
events are produced. -/
def _validate_if_required (f : FormAction) (oracle : RemoteOracle)
    (t : Tracker) (d : Domain) : Except ActionExecutionRejection (List Event) :=
  if t.latestActionName = some "action_listen"
      ∧ t.activeFormValidate.getD true = true then
    validate f oracle t d
  else Except.ok []

/-- Source: FormAction.run activates the form when needed (keeping the
activation events aside), validates the user input, and then either keeps
the validation events alone when validation deactivated the form, or
requests the next slot (returning activation, validation and request
events), or deactivates the form after submission (returning the validation
events followed by the deactivation events, without the activation
events). -/
def run (f : FormAction) (oracle : RemoteOracle) (t : Tracker) (d : Domain) :
    Except ActionExecutionRejection (List Event) :=
  let activation_events := _activate_if_required f oracle t d
  match _validate_if_required f oracle t d with
  | Except.error e => Except.error e
  | Except.ok events =>
    if Event.FormEv none ∈ events then
      Except.ok events
    else
      let temp_tracker := applyEvents t events
      match request_next_slot f temp_tracker with
      | some next_slot_events =>
          Except.ok (activation_events ++ events ++ next_slot_events)
      | none => Except.ok (events ++ deactivate f)

/-- Payload of an ActionExecuted event as built by interactive.py
send_action (as_dict of ActionExecuted(action_name, policy, confidence)).
Confidence is kept as an opaque string. -/
structure ActionExecutedPayload where
  action_name : String
  policy : Option String
  confidence : Option String
deriving DecidableEq, Repr

/-- Outcome of interactive.py send_action: the response of the execute
endpoint, a re-raised transport error, or the response-free fallback that
appends a bare ActionExecuted event through send_event. -/
inductive SendActionResult (ρ : Type) where
  | response : ρ → SendActionResult ρ
  | raised : SendActionResult ρ
  | appendedEvent : ActionExecutedPayload → SendActionResult ρ
deriving DecidableEq, Repr

/-- Source: interactive.py send_action posts the ActionExecuted payload to
the execute endpoint; on ClientError it appends a bare ActionExecuted event
for a new action (after a warning prompt) and re-raises the error for a
known action. The endpoint call is abstracted by its outcome: ok with a
response, or error for a ClientError. -/
def send_action (endpoint_outcome : Except Unit ρ) (action_name : String)
    (_policy _confidence : Option String) (is_new_action : Bool) :
    SendActionResult ρ :=
  match endpoint_outcome with
  | Except.ok r => SendActionResult.response r
  | Except.error _ =>
      if is_new_action then
        SendActionResult.appendedEvent
          { action_name := action_name, policy := none, confidence := none }
      else SendActionResult.raised

/-- Stubbed custom action of the end-to-end test fixtures: its name and the
prerecorded events and responses of its as_dict payload (kept as opaque
strings). -/
structure StubCustomAction where
  action_name : String
  events : List String
  responses : List String
deriving DecidableEq, Repr

/-- Source: StubCustomAction.as_dict returns the dict with the events and
responses of the stub. -/
def stubAsDict (s : StubCustomAction) : List String × List String :=
  (s.events, s.responses)

/-- Endpoint configuration fragment consumed by the stub executor: the
optional test file and test case scopes and the registered stub custom
actions, keyed by their lookup key. -/
structure StubEndpointConfig where
  testFileName : Option String
  testCaseName : Option String
  stubCustomActions : List (String × StubCustomAction)
deriving DecidableEq, Repr

/-- Modelled from the spec: get_stub_custom_action_key joins a scope name
and an action name with a double colon separator (spec section 6;
rasa/e2e_test/stub_custom_action.py is not part of the sampled sources, its
behaviour is fixed by tests/e2e_test/test_stub_custom_action.py). -/
def get_stub_custom_action_key (scope action_name : String) : String :=
  scope ++ "::" ++ action_name

/-- Modelled from the spec: get_stub_custom_action looks the stub up by the
test case scoped key, then the test file scoped key, then the plain action
name, with test case scope taking precedence over file scope; an action
with no registered stub yields None (spec sections 4.4 and 6, confirmed by
test_get_stub_custom_action_fallback). -/
def get_stub_custom_action (cfg : StubEndpointConfig) (action_name : String) :
    Option StubCustomAction :=
  let byCase := cfg.testCaseName.bind fun tc =>
    cfg.stubCustomActions.lookup (get_stub_custom_action_key tc action_name)
  let byFile := cfg.testFileName.bind fun tf =>
    cfg.stubCustomActions.lookup (get_stub_custom_action_key tf action_name)
  (byCase.orElse fun _ => byFile).orElse fun _ =>
    cfg.stubCustomActions.lookup action_name

/-- Stub custom action executor of
rasa/core/actions/e2e_stub_custom_action_executor.py, after successful
construction. -/
structure E2EStubCustomActionExecutor where
  action_name : String
  action_endpoint : StubEndpointConfig
  stub_custom_action : StubCustomAction
deriving DecidableEq, Repr

/-- Source: the constructor of E2EStubCustomActionExecutor resolves the
stub through get_stub_custom_action and raises a RasaException naming the
action when no stub is registered. -/
def mkE2EStubCustomActionExecutor (action_name : String)
    (cfg : StubEndpointConfig) : Except String E2EStubCustomActionExecutor :=
  match get_stub_custom_action cfg action_name with
  | some stub =>
      Except.ok
        { action_name := action_name, action_endpoint := cfg,
          stub_custom_action := stub }
  | none =>
      Except.error ("Action `" ++ action_name ++ "` has not been stubbed.")

/-- Source: E2EStubCustomActionExecutor.run returns the as_dict payload of
the resolved stub; it is a pure lookup with no remote call. -/
def E2EStubCustomActionExecutor.run (e : E2EStubCustomActionExecutor) :
    List String × List String :=
  stubAsDict e.stub_custom_action

/-- Source: CRFEntityExtractor._validate_configuration raises ValueError
unless the configured list of crf feature lists has odd length; the
features entry of the component config defaults to the empty list when
absent. -/
def crf_validate_configuration (features : Option (List (List String))) :
    Except String Unit :=
  if (features.getD []).length % 2 ≠ 1 then
    Except.error "Need an odd number of crf feature lists to have a center word."
  else Except.ok ()

deriving instance DecidableEq for Except

/-! Concrete fixtures used by counterexamples and witnesses. -/

/-- Oracle of a remote action server that returns no events; the concrete
scenarios below never reach the remote call. -/
def oracleNone : RemoteOracle := fun _ _ => []

/-- Domain with no registered custom actions. -/
def dEmpty : Domain := { actionNames := [] }

/-- Form book_restaurant with required slots time and people, both mapped
from the entity of the same name. -/
def fBook : FormAction :=
  { formName := "book_restaurant",
    config := [("time", MappingSpec.single (from_entityD "time")),
               ("people", MappingSpec.single (from_entityD "people"))] }

/-- Tracker inside the active book_restaurant form, requesting the people
slot, whose latest message carries only a time entity. -/
def tOtherOnly : Tracker :=
  { slots := [(REQUESTED_SLOT, some (Value.str "people"))],
    activeFormName := some "book_restaurant",
    activeFormValidate := some true,
    latestActionName := some "action_listen",
    latestMessage :=
      { text := some "at five", intentName := some "inform",
        entities := [{ entity := "time", value := "five",
                       role := none, group := none }] } }

/-- Tracker with no active form whose latest message carries a time entity
after an action_listen. -/
def tInactive : Tracker :=
  { slots := [],
    activeFormName := none,
    activeFormValidate := none,
    latestActionName := some "action_listen",
    latestMessage :=
      { text := some "at five", intentName := some "inform",
        entities := [{ entity := "time", value := "five",
                       role := none, group := none }] } }

/-- Tracker inside the active book_restaurant form with time already set
and people unset (scenario B). -/
def tScenarioB : Tracker :=
  { slots := [("time", some (Value.str "five"))],
    activeFormName := some "book_restaurant",
    activeFormValidate := some true,
    latestActionName := some "action_listen",
    latestMessage := { text := none, intentName := none, entities := [] } }

/-- Tracker inside the active book_restaurant form whose latest action is
not action_listen. -/
def tNoListen : Tracker :=
  { slots := [],
    activeFormName := some "book_restaurant",
    activeFormValidate := some true,
    latestActionName := some "utter_ask_time",
    latestMessage := { text := none, intentName := none, entities := [] } }

/-- Form with a single required slot time mapped from the entity of the
same name, used for the immediate-finish scenario. -/
def fTimeOnly : FormAction :=
  { formName := "book_restaurant",
    config := [("time", MappingSpec.single (from_entityD "time"))] }

/-- Mapping with an empty intent filter and a non-empty not_intent filter. -/
def mNotIntent : SlotMapping :=
  { type := MappingType.from_entity, entity := some "people", intent := [],
    not_intent := ["chitchat"], role := none, group := none, value := none }

/-- Tracker whose latest message has intent inform. -/
def tInform : Tracker :=
  { slots := [], activeFormName := none, activeFormValidate := none,
    latestActionName := some "action_listen",
    latestMessage :=
      { text := some "five people", intentName := some "inform", entities := [] } }

/-- Tracker with no entity in the latest message. -/
def tNoEntities : Tracker :=
  { slots := [], activeFormName := none, activeFormValidate := none,
    latestActionName := some "action_listen",
    latestMessage := { text := none, intentName := none, entities := [] } }

/-- Tracker with one city entity in the latest message. -/
def tOneCity : Tracker :=
  { slots := [], activeFormName := none, activeFormValidate := none,
    latestActionName := some "action_listen",
    latestMessage :=
      { text := some "to Paris", intentName := some "inform",
        entities := [{ entity := "city", value := "Paris",
                       role := none, group := none }] } }

/-- Tracker with two city entities in the latest message. -/
def tTwoCities : Tracker :=
  { slots := [], activeFormName := none, activeFormValidate := none,
    latestActionName := some "action_listen",
    latestMessage :=
      { text := some "Paris and Berlin", intentName := some "inform",
        entities := [{ entity := "city", value := "Paris",
                       role := none, group := none },
                     { entity := "city", value := "Berlin",
                       role := none, group := none }] } }

/-- Stub registered for the scoped test case key. -/
def stubCheck : StubCustomAction :=
  { action_name := "action_check", events := ["slot_was_set"],
    responses := ["utter_ok"] }

/-- Endpoint configuration with one stub registered under the test case
scope. -/
def cfgStub : StubEndpointConfig :=
  { testFileName := some "test_file",
    testCaseName := some "test_case",
    stubCustomActions := [("test_case::action_check", stubCheck)] }

/-- Tracker inside the active book_restaurant form requesting the people
slot, whose latest message carries no entity at all (scenario C). -/
def tReject : Tracker :=
  { slots := [(REQUESTED_SLOT, some (Value.str "people"))],
    activeFormName := some "book_restaurant",
    activeFormValidate := some true,
    latestActionName := some "action_listen",
    latestMessage := { text := some "hello", intentName := some "greet",
                       entities := [] } }

/-- Form with empty configuration, so that every slot lookup falls back to
the implicit from_entity mapping. -/
def fEmptyCfg : FormAction := { formName := "simple", config := [] }

/-! Helper lemmas. -/

theorem dictUpdateOne_ne_nil (base : List (String × Value))
    (kv : String × Value) : dictUpdateOne base kv ≠ [] := by
  cases base with
  | nil => simp [dictUpdateOne]
  | cons a l => unfold dictUpdateOne; split <;> simp

theorem dictUpdate_eq_nil_iff (upd base : List (String × Value)) :
    dictUpdate base upd = [] ↔ base = [] ∧ upd = [] := by
  induction upd generalizing base with
  | nil => simp [dictUpdate]
  | cons kv rest ih =>
    simp only [dictUpdate]
    rw [ih]
    constructor
    · rintro ⟨h1, _⟩; exact absurd h1 (dictUpdateOne_ne_nil base kv)
    · rintro ⟨_, h2⟩; exact absurd h2 (List.cons_ne_nil kv rest)

theorem find?_eq_of_first {α : Type} (p : α → Bool) (l : List α) :
    ∀ (i : Nat) (hi : i < l.length),
      p (l.get ⟨i, hi⟩) = true →
      (∀ j, ∀ hj : j < i, p (l.get ⟨j, Nat.lt_trans hj hi⟩) = false) →
      l.find? p = some (l.get ⟨i, hi⟩) := by
  induction l with
  | nil => intro i hi _ _; exact absurd hi (Nat.not_lt_zero i)
  | cons a as ih =>
    intro i hi hp hb
    cases i with
    | zero =>
      exact List.find?_cons_of_pos as hp
    | succ i =>
      have h0 : p a = false := by
        have := hb 0 (Nat.succ_pos i)
        simpa using this
      have hi2 : i < as.length := by simpa using hi
      have hp2 : p (as.get ⟨i, hi2⟩) = true := by simpa using hp
      have hb2 : ∀ j, ∀ hj : j < i,
          p (as.get ⟨j, Nat.lt_trans hj hi2⟩) = false := by
        intro j hj
        have := hb (j + 1) (Nat.succ_lt_succ hj)
        simpa using this
      have hrec := ih i hi2 hp2 hb2
      rw [List.find?_cons_of_neg as (by simp [h0])]
      simpa using hrec

/-! Claim theorems. -/

/-- C2 (counterexample): the claimed intent check formula starts from an
empty not_intent_filter, but the code tests emptiness of the intent filter:
a mapping with empty intent filter and not_intent filter chitchat applies
to the intent inform, while the claimed formula rejects it. -/
theorem intent_is_desired_claim_counterexample :
    intent_is_desired mNotIntent tInform = true
    ∧ ¬ ((mNotIntent.not_intent = []
          ∧ optIntentMem tInform.latestMessage.intentName mNotIntent.not_intent
              = false)
        ∨ optIntentMem tInform.latestMessage.intentName mNotIntent.intent
            = true) := by
  decide

/-- C2 (amended): the intent check of a mapping passes if and only if the
intent filter of the mapping is empty and the current user intent is not in
the not_intent filter, or the current intent is explicitly in the intent
filter. -/
theorem intent_is_desired_iff (m : SlotMapping) (t : Tracker) :
    intent_is_desired m t = true ↔
      ((m.intent = []
         ∧ optIntentMem t.latestMessage.intentName m.not_intent = false)
       ∨ optIntentMem t.latestMessage.intentName m.intent = true) := by
  unfold intent_is_desired
  simp [Bool.or_eq_true, Bool.and_eq_true, List.isEmpty_iff,
    Bool.not_eq_true']

/-- C5: get_entity_value returns None when zero entity values match the
given entity, role and group, the single value itself when exactly one
matches, and the whole ordered list of values when more than one
matches. -/
theorem get_entity_value_cardinality (name : Option String) (t : Tracker)
    (role group : Option String) :
    (getLatestEntityValues t name group role = [] →
       get_entity_value name t role group = none)
    ∧ (∀ v, getLatestEntityValues t name group role = [v] →
       get_entity_value name t role group = some (Value.str v))
    ∧ (∀ v w vs, getLatestEntityValues t name group role = v :: w :: vs →
       get_entity_value name t role group = some (Value.list (v :: w :: vs))) := by
  refine ⟨?_, ?_, ?_⟩
  · intro h; simp [get_entity_value, h]
  · intro v h; simp [get_entity_value, h]
  · intro v w vs h; simp [get_entity_value, h]

/-- C5 (witness): concrete lookups with zero, one and two matching city
entities. -/
theorem get_entity_value_cardinality_witness :
    get_entity_value (some "city") tNoEntities none none = none
    ∧ get_entity_value (some "city") tOneCity none none
        = some (Value.str "Paris")
    ∧ get_entity_value (some "city") tTwoCities none none
        = some (Value.list ["Paris", "Berlin"]) :=
  ⟨(get_entity_value_cardinality (some "city") tNoEntities none none).1
      (by decide),
   (get_entity_value_cardinality (some "city") tOneCity none none).2.1
      "Paris" (by decide),
   (get_entity_value_cardinality (some "city") tTwoCities none none).2.2
      "Paris" "Berlin" [] (by decide)⟩

/-- C6: a slot with no explicit mapping in the form configuration resolves
to exactly the single implicit from_entity mapping whose entity is the slot
name, and that mapping is what from_entity builds at default arguments. -/
theorem get_mappings_for_slot_implicit (f : FormAction) (slot : String)
    (h : f.config.lookup slot = none) :
    get_mappings_for_slot f slot = [from_entityD slot]
    ∧ from_entity slot none none none none = Except.ok (from_entityD slot) := by
  constructor
  · simp [get_mappings_for_slot, h, _to_list]
  · rfl

/-- C6 (witness): in a form with empty configuration the slot city gets the
implicit from_entity mapping. -/
theorem get_mappings_for_slot_implicit_witness :
    get_mappings_for_slot fEmptyCfg "city" = [from_entityD "city"]
    ∧ from_entity "city" none none none none
        = Except.ok (from_entityD "city") :=
  get_mappings_for_slot_implicit fEmptyCfg "city" (by decide)

/-- C7: when the execute request fails with a transport (client) error,
send_action re-raises the error for a known action and appends a bare
ActionExecuted event for a dynamically created new action. -/
theorem send_action_transport_failure (ρ : Type) (name : String)
    (policy confidence : Option String) :
    send_action (Except.error () : Except Unit ρ) name policy confidence false
        = SendActionResult.raised
    ∧ send_action (Except.error () : Except Unit ρ) name policy confidence true
        = SendActionResult.appendedEvent
            { action_name := name, policy := none, confidence := none } :=
  ⟨rfl, rfl⟩

/-- C8: constructing the stub executor fails with an error naming the
action when no stub is registered, and otherwise running the executor is a
pure lookup returning the prerecorded stub payload. -/
theorem e2e_stub_executor_spec (cfg : StubEndpointConfig) (name : String) :
    (get_stub_custom_action cfg name = none →
       mkE2EStubCustomActionExecutor name cfg
         = Except.error ("Action `" ++ name ++ "` has not been stubbed."))
    ∧ (∀ stub, get_stub_custom_action cfg name = some stub →
       mkE2EStubCustomActionExecutor name cfg
           = Except.ok { action_name := name, action_endpoint := cfg,
                         stub_custom_action := stub }
         ∧ E2EStubCustomActionExecutor.run
             { action_name := name, action_endpoint := cfg,
               stub_custom_action := stub } = stubAsDict stub) := by
  constructor
  · intro h; simp [mkE2EStubCustomActionExecutor, h]
  · intro stub h; exact ⟨by simp [mkE2EStubCustomActionExecutor, h], rfl⟩

/-- C8 (witness): the concrete endpoint configuration registers the stub
only under the test case key; an unknown action fails with the descriptive
error and the registered action runs to its prerecorded payload. -/
theorem e2e_stub_executor_witness :
    mkE2EStubCustomActionExecutor "new_action" cfgStub
        = Except.error ("Action `" ++ "new_action" ++ "` has not been stubbed.")
    ∧ mkE2EStubCustomActionExecutor "action_check" cfgStub
        = Except.ok { action_name := "action_check", action_endpoint := cfgStub,
                      stub_custom_action := stubCheck }
    ∧ E2EStubCustomActionExecutor.run
        { action_name := "action_check", action_endpoint := cfgStub,
          stub_custom_action := stubCheck } = stubAsDict stubCheck :=
  ⟨(e2e_stub_executor_spec cfgStub "new_action").1 (by decide),
   ((e2e_stub_executor_spec cfgStub "action_check").2 stubCheck (by decide)).1,
   ((e2e_stub_executor_spec cfgStub "action_check").2 stubCheck (by decide)).2⟩

/-- C9 (counterexample): a feature-window list of odd length three passes
validation without raising, refuting the claim that odd lengths are the
fatal case. -/
theorem crf_odd_features_accepted :
    ([["low"], ["title"], ["upper"]] : List (List String)).length % 2 = 1
    ∧ crf_validate_configuration (some [["low"], ["title"], ["upper"]])
        = Except.ok ()
    ∧ crf_validate_configuration (some [["low"], ["title"]])
        = Except.error
            "Need an odd number of crf feature lists to have a center word." := by
  decide

/-- C9 (amended): validating a CRF extractor configuration raises exactly
when the feature-window list has even length (a missing features entry
counts as the empty list); odd lengths pass. -/
theorem crf_validate_configuration_parity
    (features : Option (List (List String))) :
    (crf_validate_configuration features
        = Except.error
            "Need an odd number of crf feature lists to have a center word."
      ↔ (features.getD []).length % 2 = 0)
    ∧ (crf_validate_configuration features = Except.ok ()
      ↔ (features.getD []).length % 2 = 1) := by
  by_cases h : (features.getD []).length % 2 = 1
  · simp [crf_validate_configuration, h]
  · have h0 : (features.getD []).length % 2 = 0 := by omega
    simp [crf_validate_configuration, h, h0]

/-- C1 (counterexample): with the people slot requested and nothing
extractable for it, validate does not raise when another slot (time) was
extracted from the user input: the rejection check tests the combined
extraction dict, not the requested slot alone. -/
theorem validate_other_slot_no_rejection :
    truthy (get_slot tOtherOnly REQUESTED_SLOT) = true
    ∧ extract_requested_slot fBook tOtherOnly = []
    ∧ validate fBook oracleNone tOtherOnly dEmpty
        = Except.ok [Event.SlotSet "time" (some (Value.str "five"))] := by
  decide

/-- C1 (amended): validate raises the rejection signal exactly when a slot
was requested and nothing was extracted for any slot, neither the requested
slot nor any other slot of the form. -/
theorem validate_rejects_iff_nothing_extracted (f : FormAction)
    (oracle : RemoteOracle) (t : Tracker) (d : Domain) :
    (∃ e, validate f oracle t d = Except.error e) ↔
      (truthy (get_slot t REQUESTED_SLOT) = true
        ∧ extract_other_slots f t = [] ∧ extract_requested_slot f t = []) := by
  unfold validate
  dsimp only
  by_cases h : truthy (get_slot t REQUESTED_SLOT) = true
  · rw [if_pos h]
    by_cases h2 :
        dictUpdate (extract_other_slots f t) (extract_requested_slot f t) = []
    · have hE :
          (dictUpdate (extract_other_slots f t)
            (extract_requested_slot f t)).isEmpty = true := by
        simp [h2]
      have hparts := (dictUpdate_eq_nil_iff _ _).1 h2
      rw [if_pos hE]
      constructor
      · intro _; exact ⟨h, hparts.1, hparts.2⟩
      · intro _; exact ⟨_, rfl⟩
    · have hE :
          (dictUpdate (extract_other_slots f t)
            (extract_requested_slot f t)).isEmpty = false := by
        simp [List.isEmpty_iff, h2]
      rw [if_neg (by simp [hE])]
      constructor
      · rintro ⟨e, he⟩; exact Except.noConfusion he
      · rintro ⟨_, hA, hB⟩
        exact absurd ((dictUpdate_eq_nil_iff _ _).2 ⟨hA, hB⟩) h2
  · rw [if_neg h]
    constructor
    · rintro ⟨e, he⟩; exact Except.noConfusion he
    · rintro ⟨hh, _, _⟩; exact absurd hh h

/-- C1 (witness): scenario C, with the people slot requested and a latest
message carrying no entity and an off-filter intent, validate raises the
rejection signal. -/
theorem validate_rejects_witness :
    ∃ e, validate fBook oracleNone tReject dEmpty = Except.error e :=
  (validate_rejects_iff_nothing_extracted fBook oracleNone tReject dEmpty).2
    ⟨by decide, by decide, by decide⟩

/-- C3 (counterexample): the already-active condition is not part of the
code: with no active form but a latest action_listen action,
_validate_if_required still validates and produces a SlotSet event, where
the claim says validation is skipped with no events. -/
theorem validate_if_required_inactive_counterexample :
    tInactive.activeFormName ≠ some fBook.formName
    ∧ tInactive.latestActionName = some "action_listen"
    ∧ _validate_if_required fBook oracleNone tInactive dEmpty
        = Except.ok [Event.SlotSet "time" (some (Value.str "five"))] := by
  decide

/-- C3 (amended): _validate_if_required runs validate exactly when the
latest action is action_listen and the validate flag of the active loop
(defaulting to true) is set; whether the form was already active is not
checked; otherwise validation is skipped with no events. -/
theorem validate_if_required_iff (f : FormAction) (oracle : RemoteOracle)
    (t : Tracker) (d : Domain) :
    (t.latestActionName = some "action_listen"
        ∧ t.activeFormValidate.getD true = true →
      _validate_if_required f oracle t d = validate f oracle t d)
    ∧ (¬ (t.latestActionName = some "action_listen"
          ∧ t.activeFormValidate.getD true = true) →
      _validate_if_required f oracle t d = Except.ok []) := by
  constructor
  · intro h; unfold _validate_if_required; rw [if_pos h]
  · intro h; unfold _validate_if_required; rw [if_neg h]

/-- C3 (witness): with the form active after an action_listen, validation
runs; with a latest action other than action_listen it is skipped. -/
theorem validate_if_required_witness :
    _validate_if_required fBook oracleNone tOtherOnly dEmpty
        = validate fBook oracleNone tOtherOnly dEmpty
    ∧ _validate_if_required fBook oracleNone tNoListen dEmpty
        = Except.ok [] :=
  ⟨(validate_if_required_iff fBook oracleNone tOtherOnly dEmpty).1 (by decide),
   (validate_if_required_iff fBook oracleNone tNoListen dEmpty).2 (by decide)⟩

/-- Shared helper: when validation succeeds without deactivating the form
and no required slot is left unset on the hypothetical tracker, run returns
the validation events followed by the deactivation events. -/
theorem run_submit_eq (f : FormAction) (oracle : RemoteOracle) (t : Tracker)
    (d : Domain) (ve : List Event)
    (hval : _validate_if_required f oracle t d = Except.ok ve)
    (hnodeact : Event.FormEv none ∉ ve)
    (hnext : request_next_slot f (applyEvents t ve) = none) :
    run f oracle t d
      = Except.ok (ve ++ [Event.FormEv none, Event.SlotSet REQUESTED_SLOT none]) := by
  unfold run
  rw [hval]
  simp [hnodeact, hnext, deactivate]

/-- C4: request_next_slot returns a SlotSet naming the first required slot
in declared order whose tracker value is unset, returns None when every
required slot is set, and in that case run deactivates the form by
appending Form(None) followed by SlotSet(requested_slot, None). -/
theorem request_next_slot_spec (f : FormAction) (t : Tracker) :
    (∀ i, ∀ hi : i < (required_slots f).length,
       get_slot t ((required_slots f).get ⟨i, hi⟩) = none →
       (∀ j, ∀ hj : j < i,
         get_slot t ((required_slots f).get ⟨j, Nat.lt_trans hj hi⟩) ≠ none) →
       request_next_slot f t
         = some [Event.SlotSet REQUESTED_SLOT
             (some (Value.str ((required_slots f).get ⟨i, hi⟩)))])
    ∧ ((∀ slot, slot ∈ required_slots f → get_slot t slot ≠ none) →
       request_next_slot f t = none)
    ∧ (∀ oracle d ve,
       _validate_if_required f oracle t d = Except.ok ve →
       Event.FormEv none ∉ ve →
       request_next_slot f (applyEvents t ve) = none →
       run f oracle t d
         = Except.ok (ve ++ [Event.FormEv none,
             Event.SlotSet REQUESTED_SLOT none])) := by
  refine ⟨?_, ?_, ?_⟩
  · intro i hi h hbefore
    unfold request_next_slot
    rw [find?_eq_of_first (fun slot => _should_request_slot t slot)
      (required_slots f) i hi
      (by simp only [_should_request_slot, Option.isNone_iff_eq_none]; exact h)
      (by intro j hj
          have := hbefore j hj
          simp only [_should_request_slot]
          rw [Bool.eq_false_iff]
          simpa [Option.isNone_iff_eq_none] using this)]
  · intro hall
    unfold request_next_slot
    have hfind :
        (required_slots f).find? (fun slot => _should_request_slot t slot)
          = none := by
      rw [List.find?_eq_none]
      intro x hx
      simpa [_should_request_slot, Option.isNone_iff_eq_none] using hall x hx
    rw [hfind]
  · intro oracle d ve hval hnodeact hnext
    exact run_submit_eq f oracle t d ve hval hnodeact hnext

/-- C4 (witness): scenario B, in the book_restaurant form with time set and
people unset, the next requested slot is people; and with both slots set,
no slot is requested. -/
theorem request_next_slot_spec_witness :
    request_next_slot fBook tScenarioB
        = some [Event.SlotSet REQUESTED_SLOT (some (Value.str "people"))]
    ∧ request_next_slot fBook
        (applyEvents tScenarioB [Event.SlotSet "people" (some (Value.str "4"))])
        = none := by
  constructor
  · have hi : 1 < (required_slots fBook).length := by decide
    have hb : ∀ j, ∀ hj : j < 1,
        get_slot tScenarioB
            ((required_slots fBook).get ⟨j, Nat.lt_trans hj hi⟩) ≠ none := by
      intro j hj
      have hj0 : j = 0 := by omega
      subst hj0
      exact (show get_slot tScenarioB "time" ≠ none by decide)
    exact (request_next_slot_spec fBook tScenarioB).1 1 hi
      (show get_slot tScenarioB "people" = none by decide) hb
  · exact (request_next_slot_spec fBook
      (applyEvents tScenarioB [Event.SlotSet "people" (some (Value.str "4"))])).2.1
      (by intro slot hslot
          fin_cases hslot <;> decide)

/-- C10: when run activates the form in this turn and validation leaves no
required slot unset, the returned events are the validation events followed
by the deactivation events; the activation events (headed by the
Form(form_name) event) are computed but not part of the returned list. -/
theorem run_drops_activation_on_immediate_finish (f : FormAction)
    (oracle : RemoteOracle) (t : Tracker) (d : Domain) (ve : List Event)
    (hact : t.activeFormName ≠ some f.formName)
    (hval : _validate_if_required f oracle t d = Except.ok ve)
    (hnodeact : Event.FormEv none ∉ ve)
    (hnext : request_next_slot f (applyEvents t ve) = none)
    (hnoact : Event.FormEv (some f.formName) ∉ ve) :
    run f oracle t d
        = Except.ok (ve ++ [Event.FormEv none,
            Event.SlotSet REQUESTED_SLOT none])
    ∧ (_activate_if_required f oracle t d).head?
        = some (Event.FormEv (some f.formName))
    ∧ ∀ evs, run f oracle t d = Except.ok evs →
        Event.FormEv (some f.formName) ∉ evs := by
  refine ⟨run_submit_eq f oracle t d ve hval hnodeact hnext, ?_, ?_⟩
  · unfold _activate_if_required
    rw [if_neg hact]
    dsimp only
    split <;> rfl
  · intro evs hevs
    rw [run_submit_eq f oracle t d ve hval hnodeact hnext] at hevs
    injection hevs with h
    subst h
    intro hmem
    rw [List.mem_append] at hmem
    rcases hmem with hmem | hmem
    · exact hnoact hmem
    · simp at hmem

/-- C10 (witness): a single-slot form activated by a message that already
fills its slot finishes immediately; run returns the validation and
deactivation events only, while the computed activation events are headed
by the Form event naming the form. -/
theorem run_drops_activation_witness :
    run fTimeOnly oracleNone tInactive dEmpty
        = Except.ok [Event.SlotSet "time" (some (Value.str "five")),
            Event.FormEv none, Event.SlotSet REQUESTED_SLOT none]
    ∧ (_activate_if_required fTimeOnly oracleNone tInactive dEmpty).head?
        = some (Event.FormEv (some "book_restaurant")) := by
  have h := run_drops_activation_on_immediate_finish fTimeOnly oracleNone
    tInactive dEmpty [Event.SlotSet "time" (some (Value.str "five"))]
    (by decide) (by decide) (by decide) (by decide) (by decide)
  exact ⟨h.1, h.2.1⟩
